import Mathlib

/-!
Shallow embedding of the r3voc tally-light firmware control plane
(`src/tallylight-mcu-software/src/main.cpp`): the tally state machine,
the `/set`, `/ping`, `/identify`, `/restart` HTTP handlers, the NVS
config persistence (`saveConfig`/`loadConfig`), the liveness check in
`loop()`, and the one-shot OTA trigger (`hasTriedOta`).
-/

namespace Tally

/-- The `TallyState` enumeration (`main.cpp` lines 48–56). -/
inductive TallyState where
  | off
  | standby
  | program
  | preview
  | error
  deriving DecidableEq, Repr

/-- `toString(TallyState)` (`main.cpp` lines 58–75). -/
def TallyState.toStr : TallyState → String
  | .off => "OFF"
  | .standby => "STANDBY"
  | .program => "PROGRAM"
  | .preview => "PREVIEW"
  | .error => "ERROR"

/-- `fromString(const String&)` (`main.cpp` lines 77–91): decode a tally
state by name, `none` for anything not in the closed enumeration. -/
def TallyState.fromString (stateStr : String) : Option TallyState :=
  if stateStr = "OFF" then some .off
  else if stateStr = "STANDBY" then some .standby
  else if stateStr = "PROGRAM" then some .program
  else if stateStr = "PREVIEW" then some .preview
  else if stateStr = "ERROR" then some .error
  else none

/-- The persisted `Config` record (`main.cpp` lines 128–131): a single
`uint8_t brightness`, default `std::numeric_limits<uint8_t>::max() / 2`. -/
structure Config where
  brightness : Fin 256
  deriving DecidableEq, Repr

/-- Default-constructed `Config`: brightness `255 / 2 = 127`. -/
def defaultConfig : Config := ⟨127⟩

/-- `constexpr uint8_t configVersion = 1` (`main.cpp` line 126). -/
def configVersionC : Int := 1

/-- The NVS key/value store as seen by this firmware: the
`"configVersion"` integer entry and the `"config"` blob entry
(bytes), each possibly never written. -/
structure NVSStore where
  configVersion : Option Int
  configBlob : Option (List (Fin 256))
  deriving DecidableEq, Repr

/-- A store in which neither key has ever been written. -/
def emptyStore : NVSStore := ⟨none, none⟩

/-- The byte image of `Config` written by
`NVS.setBlob("config", (uint8_t*)&config, sizeof(config))`:
`sizeof(Config) = 1`, the single brightness byte. -/
def encodeConfig (c : Config) : List (Fin 256) := [c.brightness]

/-- Reading the `"config"` blob back into a `Config`
(`NVS.getBlob("config", (uint8_t*)&config, sizeof(config))`):
succeeds exactly when the stored blob has the size of `Config`. -/
def decodeConfig (bs : List (Fin 256)) : Option Config :=
  match bs with
  | [b] => some ⟨b⟩
  | _ => none

/-- `saveConfig()` (`main.cpp` lines 133–139): writes the schema version
and the config blob to NVS and commits. -/
def saveConfigStore (c : Config) (_n : NVSStore) : NVSStore :=
  { configVersion := some configVersionC, configBlob := some (encodeConfig c) }

/-- `loadConfig()` (`main.cpp` lines 141–163), as a function of the
in-memory `config` global and the NVS store, returning the resulting
in-memory config and store. `NVS.getInt("configVersion", 0)` yields `0`
when the key was never written; a version mismatch keeps the in-memory
value and persists it via `saveConfig`; a blob read failure resets to
`Config()` and persists that. -/
def loadConfig (c : Config) (n : NVSStore) : Config × NVSStore :=
  let version := n.configVersion.getD 0
  if version ≠ configVersionC then
    (c, saveConfigStore c n)
  else
    match n.configBlob.bind decodeConfig with
    | some c' => (c', n)
    | none => (defaultConfig, saveConfigStore defaultConfig n)

/-- An incoming HTTP GET request's query parameters, as the handlers
read them: each of `apiKey`, `state`, `brightness` either absent or a
string value. -/
structure Request where
  apiKey : Option String
  state : Option String
  brightness : Option String
  deriving DecidableEq, Repr

/-- The mutable globals the handlers and `loop()` touch: `tallyState`,
`config`, `lastPing`, `identifyStart`, plus the NVS store behind
`saveConfig`. -/
structure DeviceState where
  tallyState : TallyState
  config : Config
  lastPing : Nat
  identifyStart : Nat
  nvs : NVSStore
  deriving DecidableEq, Repr

/-- The globals as initialized at boot (`tallyState = TALLY_OFF` in
`setup()` line 175, `uint64_t lastPing = 1` line 165,
`uint64_t identifyStart = 0` line 167), with the config produced by
`loadConfig` and the resulting store. -/
def bootState (cfg : Config) (n : NVSStore) : DeviceState :=
  { tallyState := .off, config := cfg, lastPing := 1, identifyStart := 0, nvs := n }

/-- Whitespace as `isspace` classifies it (the characters `atol` skips). -/
def isSpaceC (c : Char) : Bool :=
  c = ' ' || c = '\t' || c = '\n' || c = (Char.ofNat 11) || c = (Char.ofNat 12) || c = '\r'

/-- The optional leading sign consumed by `atol`: a leading `'-'` gives
sign `-1`, a leading `'+'` gives `1`, anything else leaves the input
untouched with sign `1`. -/
def stripSign (cs : List Char) : Int × List Char :=
  match cs with
  | c :: rest =>
    if c = '-' then (-1, rest)
    else if c = '+' then (1, rest)
    else (1, c :: rest)
  | [] => (1, [])

/-- Arduino `String::toInt()`, i.e. C `atol` on the buffer: skip leading
whitespace, an optional sign, then a maximal run of decimal digits
(empty run gives 0), clamped to 32-bit `long` range as `strtol` does. -/
def arduinoToInt (s : String) : Int :=
  let cs := s.data.dropWhile isSpaceC
  let signAndRest := stripSign cs
  let ds := signAndRest.2.takeWhile Char.isDigit
  let mag : Nat := ds.foldl (fun a c => a * 10 + (c.toNat - 48)) 0
  let v : Int := signAndRest.1 * mag
  max (-(2 ^ 31)) (min (2 ^ 31 - 1) v)

/-- Result of the `/set` handler: 403 invalid-API-key response, a 400
`SEND_ERROR` response with its message, or the 200 success response
carrying the resulting tally state and brightness. -/
inductive SetResult where
  | unauthorized
  | errorResp (msg : String)
  | success (st : TallyState) (br : Fin 256)
  deriving DecidableEq, Repr

/-- HTTP status code of a `/set` response. -/
def SetResult.statusCode : SetResult → Nat
  | .unauthorized => 403
  | .errorResp _ => 400
  | .success _ _ => 200

/-- Tail of the `/set` handler from the brightness block on
(`main.cpp` lines 314–342): parse and range-check `brightness`, persist
only on change, then the `noAction` check and the success response. -/
def setHandlerBrightness (req : Request) (hadState : Bool) (s : DeviceState) :
    SetResult × DeviceState :=
  match req.brightness with
  | some brightnessParam =>
    let brightness := arduinoToInt brightnessParam
    if h : 0 ≤ brightness ∧ brightness ≤ 255 then
      let newBrightness : Fin 256 := ⟨brightness.toNat, by omega⟩
      let s :=
        if newBrightness ≠ s.config.brightness then
          { s with config := ⟨newBrightness⟩,
                   nvs := saveConfigStore ⟨newBrightness⟩ s.nvs }
        else s
      (.success s.tallyState s.config.brightness, s)
    else
      (.errorResp "Invalid brightness value", s)
  | none =>
    if !hadState then
      (.errorResp "No parameters given", s)
    else
      (.success s.tallyState s.config.brightness, s)

/-- The `/set` handler (`main.cpp` lines 275–345): API-key check first,
then `lastPing = millis()`, then the `state` block (applied immediately
when valid), then the brightness block via `setHandlerBrightness`. -/
def setHandler (key : String) (req : Request) (now : Nat) (s : DeviceState) :
    SetResult × DeviceState :=
  if req.apiKey ≠ some key then
    (.unauthorized, s)
  else
    let s := { s with lastPing := now }
    match req.state with
    | some stateParam =>
      match TallyState.fromString stateParam with
      | some v => setHandlerBrightness req true { s with tallyState := v }
      | none => (.errorResp "Invalid state value", s)
    | none => setHandlerBrightness req false s

/-- The `/ping` handler (`main.cpp` lines 347–350): unauthenticated,
sets `lastPing = millis()` and answers "pong". -/
def pingHandler (now : Nat) (s : DeviceState) : DeviceState :=
  { s with lastPing := now }

/-- Result of `/identify` and `/restart`: 403 or success. -/
inductive SimpleResult where
  | unauthorized
  | success
  deriving DecidableEq, Repr

/-- The `/identify` handler (`main.cpp` lines 352–362): API-key check,
then `identifyStart = millis() + 5000`. -/
def identifyHandler (key : String) (req : Request) (now : Nat) (s : DeviceState) :
    SimpleResult × DeviceState :=
  if req.apiKey ≠ some key then
    (.unauthorized, s)
  else
    (.success, { s with identifyStart := now + 5000 })

/-- The `/restart` handler (`main.cpp` lines 364–375): API-key check,
then respond success and call `ESP.restart()`; the Boolean records
whether the process restarts. No global is mutated either way. -/
def restartHandler (key : String) (req : Request) (s : DeviceState) :
    SimpleResult × DeviceState × Bool :=
  if req.apiKey ≠ some key then
    (.unauthorized, s, false)
  else
    (.success, s, true)

/-- 64-bit wrapping subtraction, as in `millis() - lastPing` where
`lastPing` is `uint64_t` (the `uint32_t` result of `millis()` is
promoted to `uint64_t` before the subtraction). -/
def sub64 (a b : Nat) : Nat := (a % 2 ^ 64 + 2 ^ 64 - b % 2 ^ 64) % 2 ^ 64

/-- The liveness check in `loop()` (`main.cpp` lines 489–495): if
`lastPing != 0 && millis() - lastPing > 25000 && tallyState != TALLY_ERROR`,
set `lastPing = 0` (preventing further forced transitions) and force
`tallyState = TALLY_ERROR`. -/
def livenessTick (s : DeviceState) (now : Nat) : DeviceState :=
  if s.lastPing ≠ 0 ∧ sub64 now s.lastPing > 25000 ∧ s.tallyState ≠ .error then
    { s with lastPing := 0, tallyState := .error }
  else
    s

/-- The `loop()` globals governing the one-shot OTA attempt:
`bool hasTriedOta = false` (line 388) and `bool otaInProgress = false`
(line 171). -/
structure LoopState where
  hasTriedOta : Bool
  otaInProgress : Bool
  deriving DecidableEq, Repr

/-- Those globals at process start. -/
def loopInit : LoopState := ⟨false, false⟩

/-- One `loop()` iteration restricted to the OTA trigger
(`main.cpp` lines 390–401): an early return while `otaInProgress`;
otherwise, if the network is connected and `hasTriedOta` is still
false, set `hasTriedOta = true` and run the check-and-apply sequence.
Returns whether the sequence ran this iteration. -/
def otaStep (connected : Bool) (s : LoopState) : Bool × LoopState :=
  if s.otaInProgress then
    (false, s)
  else if connected && !s.hasTriedOta then
    (true, { s with hasTriedOta := true })
  else
    (false, s)

/-- Number of loop iterations, over a given trace of connectivity
values, in which the OTA check-and-apply sequence is started. -/
def otaRuns : List Bool → LoopState → Nat
  | [], _ => 0
  | c :: cs, s =>
    let step := otaStep c s
    (if step.1 then 1 else 0) + otaRuns cs step.2

/-- Index of the first loop iteration, over a given trace of
connectivity values, in which the OTA sequence is started (if any). -/
def otaRunIdx : List Bool → LoopState → Option Nat
  | [], _ => none
  | c :: cs, s =>
    let step := otaStep c s
    if step.1 then some 0 else (otaRunIdx cs step.2).map (· + 1)

/-! ### Helper lemmas -/

theorem sub64_eq_sub (a b : Nat) (hb : b ≤ a) (ha : a < 2 ^ 64) :
    sub64 a b = a - b := by
  have hb' : b < 2 ^ 64 := lt_of_le_of_lt hb ha
  have hpow : (2 : Nat) ^ 64 = 18446744073709551616 := by norm_num
  unfold sub64
  rw [hpow] at *
  omega

theorem livenessTick_disabled (s : DeviceState) (now : Nat) (h : s.lastPing = 0) :
    livenessTick s now = s := by
  unfold livenessTick
  rw [if_neg]
  simp [h]

theorem setHandlerBrightness_lastPing (req : Request) (hadState : Bool)
    (s : DeviceState) :
    (setHandlerBrightness req hadState s).2.lastPing = s.lastPing := by
  unfold setHandlerBrightness
  cases req.brightness with
  | none => dsimp only; split <;> rfl
  | some bp =>
    dsimp only
    split
    · split <;> rfl
    · rfl

theorem otaStep_tried (c : Bool) (s : LoopState) (h : s.hasTriedOta = true) :
    otaStep c s = (false, s) := by
  simp [otaStep, h]

theorem otaRuns_of_tried (cs : List Bool) (s : LoopState) (h : s.hasTriedOta = true) :
    otaRuns cs s = 0 := by
  induction cs with
  | nil => rfl
  | cons c cs ih => simp [otaRuns, otaStep_tried c s h, ih]

theorem takeWhile_isDigit_nil (l : List Char) (h : ∀ c ∈ l, c.isDigit = false) :
    l.takeWhile Char.isDigit = [] := by
  cases l with
  | nil => rfl
  | cons c t => simp [List.takeWhile_cons, h c (by simp)]

theorem stripSign_mem (cs : List Char) : ∀ x ∈ (stripSign cs).2, x ∈ cs := by
  cases cs with
  | nil => intro x hx; simp [stripSign] at hx
  | cons c rest =>
    intro x hx
    unfold stripSign at hx
    dsimp only at hx
    split at hx
    · exact List.mem_cons_of_mem _ hx
    · split at hx
      · exact List.mem_cons_of_mem _ hx
      · exact hx

theorem arduinoToInt_eq_zero (v : String) (h : ∀ c ∈ v.data, c.isDigit = false) :
    arduinoToInt v = 0 := by
  have h2 : ∀ c ∈ (stripSign (v.data.dropWhile isSpaceC)).2, c.isDigit = false := by
    intro c hc
    exact h c ((v.data.dropWhile_sublist isSpaceC).subset (stripSign_mem _ c hc))
  unfold arduinoToInt
  simp only [takeWhile_isDigit_nil _ h2, List.foldl_nil, Nat.cast_zero, mul_zero]
  norm_num

/-! ### Claim theorems -/

/-- C2: once the liveness deadline is armed (`lastPing ≠ 0`), a tick more
than 25 seconds after the recorded contact while the state is not `Error`
forces `tallyState` to `Error` and sets the disabled sentinel
(`lastPing = 0`); with the sentinel set, every subsequent tick leaves the
state untouched, so the forced transition fires exactly once per silence
episode. -/
theorem C2_liveness_fires_once (s : DeviceState) (now : Nat)
    (h1 : s.lastPing ≠ 0) (h2 : now < 2 ^ 64) (h3 : s.lastPing ≤ now)
    (h4 : 25000 < now - s.lastPing) (h5 : s.tallyState ≠ .error) :
    livenessTick s now = { s with tallyState := .error, lastPing := 0 } ∧
    ∀ now', livenessTick { s with tallyState := .error, lastPing := 0 } now' =
      { s with tallyState := .error, lastPing := 0 } := by
  constructor
  · unfold livenessTick
    rw [if_pos]
    exact ⟨h1, by rw [sub64_eq_sub now s.lastPing h3 h2]; exact h4, h5⟩
  · intro now'
    exact livenessTick_disabled _ now' rfl

/-- Witness for C2 at a concrete armed state and tick time. -/
theorem C2_liveness_fires_once_witness :
    livenessTick ⟨.standby, defaultConfig, 100, 0, emptyStore⟩ 26000 =
      ⟨.error, defaultConfig, 0, 0, emptyStore⟩ ∧
    livenessTick ⟨.error, defaultConfig, 0, 0, emptyStore⟩ 999999 =
      ⟨.error, defaultConfig, 0, 0, emptyStore⟩ := by
  have h := C2_liveness_fires_once ⟨.standby, defaultConfig, 100, 0, emptyStore⟩ 26000
    (by decide) (by norm_num) (by decide) (by decide) (by decide)
  exact ⟨h.1, h.2 999999⟩

/-- C3 counterexample: at boot no contact has ever been recorded, yet a
single tick 30 seconds after boot forces `tallyState` to `Error`,
because `lastPing` is initialized to `1` (armed), not to the disabled
sentinel `0`. -/
theorem C3_counterexample :
    (livenessTick (bootState defaultConfig emptyStore) 30000).tallyState =
      TallyState.error ∧
    (bootState defaultConfig emptyStore).lastPing = 1 := by
  exact ⟨rfl, rfl⟩

/-- C3 amended: `lastPing` boots to `1`, which the liveness check treats
as contact recorded at time 1; so even with no contact ever recorded, a
tick more than 25001 ms after boot forces `Error` (once). The monitor
never forces `Error` only when the disabled sentinel (`lastPing = 0`) is
set. -/
theorem C3_amended_boot_fires (cfg : Config) (n : NVSStore) (now : Nat)
    (h1 : 25001 < now) (h2 : now < 2 ^ 64) :
    livenessTick (bootState cfg n) now =
      { bootState cfg n with tallyState := .error, lastPing := 0 } ∧
    ∀ (s : DeviceState), s.lastPing = 0 → ∀ m, livenessTick s m = s := by
  constructor
  · unfold livenessTick
    rw [if_pos]
    refine ⟨by simp [bootState], ?_, by simp [bootState]⟩
    have : (bootState cfg n).lastPing = 1 := rfl
    rw [this, sub64_eq_sub now 1 (by omega) h2]
    omega
  · intro s hs m
    exact livenessTick_disabled s m hs

/-- Witness for C3's amended claim at a concrete boot state and time. -/
theorem C3_amended_boot_fires_witness :
    livenessTick (bootState defaultConfig emptyStore) 60000 =
      { bootState defaultConfig emptyStore with tallyState := .error, lastPing := 0 } ∧
    livenessTick ⟨.program, defaultConfig, 0, 0, emptyStore⟩ 77777 =
      ⟨.program, defaultConfig, 0, 0, emptyStore⟩ := by
  have h := C3_amended_boot_fires defaultConfig emptyStore 60000 (by norm_num) (by norm_num)
  exact ⟨h.1, h.2 ⟨.program, defaultConfig, 0, 0, emptyStore⟩ rfl 77777⟩

/-- C4: any request to `/set`, `/identify` or `/restart` whose `apiKey`
parameter is missing or wrong gets the 403 unauthorized response and
mutates nothing: the entire device state (tallyState, config, lastPing,
identifyStart, NVS) is returned unchanged, and `/restart` does not
restart. The key check is the first thing each handler does, so this
holds for arbitrary `state`/`brightness` parameters. -/
theorem C4_unauthorized_no_mutation (key : String) (req : Request) (now : Nat)
    (s : DeviceState) (h : req.apiKey ≠ some key) :
    setHandler key req now s = (.unauthorized, s) ∧
    (setHandler key req now s).1.statusCode = 403 ∧
    identifyHandler key req now s = (.unauthorized, s) ∧
    restartHandler key req s = (.unauthorized, s, false) := by
  refine ⟨?_, ?_, ?_, ?_⟩ <;>
    simp [setHandler, identifyHandler, restartHandler, SetResult.statusCode, h]

/-- Witness for C4: a wrong key alongside otherwise valid parameters. -/
theorem C4_unauthorized_no_mutation_witness :
    setHandler "tallylight" ⟨some "wrong", some "PROGRAM", some "200"⟩ 500
      (bootState defaultConfig emptyStore) =
      (.unauthorized, bootState defaultConfig emptyStore) ∧
    identifyHandler "tallylight" ⟨none, none, none⟩ 500
      (bootState defaultConfig emptyStore) =
      (.unauthorized, bootState defaultConfig emptyStore) := by
  refine ⟨(C4_unauthorized_no_mutation "tallylight"
    ⟨some "wrong", some "PROGRAM", some "200"⟩ 500
    (bootState defaultConfig emptyStore) (by decide)).1,
    (C4_unauthorized_no_mutation "tallylight" ⟨none, none, none⟩ 500
    (bootState defaultConfig emptyStore) (by decide)).2.2.1⟩

/-- C5: once `tallyState` is `Error`, the liveness check of `loop()`
leaves the whole state unchanged, and `/ping` only re-arms the liveness
deadline (`lastPing := now`) while leaving `tallyState` untouched; an
authenticated `/set` with a valid state name is what moves `tallyState`
(to the decoded value). -/
theorem C5_error_latched :
    (∀ (s : DeviceState) (now : Nat), s.tallyState = .error →
      livenessTick s now = s) ∧
    (∀ (s : DeviceState) (now : Nat),
      (pingHandler now s).tallyState = s.tallyState ∧
      (pingHandler now s).lastPing = now) ∧
    (∀ (key : String) (req : Request) (now : Nat) (s : DeviceState)
      (st : String) (v : TallyState),
      req.apiKey = some key → req.state = some st → req.brightness = none →
      TallyState.fromString st = some v →
      (setHandler key req now s).2.tallyState = v ∧
      (setHandler key req now s).1 = .success v s.config.brightness) := by
  refine ⟨?_, ?_, ?_⟩
  · intro s now h
    unfold livenessTick
    rw [if_neg]
    simp [h]
  · intro s now
    exact ⟨rfl, rfl⟩
  · intro key req now s st v h1 h2 h3 h4
    simp [setHandler, h1, h2, h3, h4, setHandlerBrightness]

/-- Witness for C5: the Error state survives a tick and a ping, and an
explicit valid `set` leaves it. -/
theorem C5_error_latched_witness :
    livenessTick ⟨.error, defaultConfig, 5, 0, emptyStore⟩ 999999 =
      ⟨.error, defaultConfig, 5, 0, emptyStore⟩ ∧
    (pingHandler 7 ⟨.error, defaultConfig, 0, 0, emptyStore⟩).tallyState =
      TallyState.error ∧
    (setHandler "k" ⟨some "k", some "OFF", none⟩ 9
      ⟨.error, defaultConfig, 0, 0, emptyStore⟩).2.tallyState = TallyState.off := by
  refine ⟨C5_error_latched.1 ⟨.error, defaultConfig, 5, 0, emptyStore⟩ 999999 rfl,
    (C5_error_latched.2.1 ⟨.error, defaultConfig, 0, 0, emptyStore⟩ 7).1,
    (C5_error_latched.2.2 "k" ⟨some "k", some "OFF", none⟩ 9
      ⟨.error, defaultConfig, 0, 0, emptyStore⟩ "OFF" .off rfl rfl rfl rfl).1⟩

/-- C1 counterexample: an authenticated `/set` with a valid `state`
(`PROGRAM`) and an out-of-range `brightness` (`999`) is rejected with a
400 error, yet `tallyState` has already been mutated from `off` to
`program` — the valid state field was applied before brightness
validation, contradicting "no state is mutated". -/
theorem C1_counterexample :
    (setHandler "tallylight" ⟨some "tallylight", some "PROGRAM", some "999"⟩ 100
      (bootState defaultConfig emptyStore)).1.statusCode = 400 ∧
    (setHandler "tallylight" ⟨some "tallylight", some "PROGRAM", some "999"⟩ 100
      (bootState defaultConfig emptyStore)).2.tallyState = TallyState.program ∧
    (bootState defaultConfig emptyStore).tallyState = TallyState.off := by
  exact ⟨rfl, rfl, rfl⟩

/-- C1 amended: an authenticated `/set` supplying both `state` and
`brightness` where at least one fails validation is rejected with a 400
error and `config.brightness` (and the NVS store) keeps its prior
value; but `tallyState` is partially applied: it takes the decoded
state value when the state name is valid (even though the request is
rejected for the brightness), and keeps its prior value only when the
state name itself is invalid. -/
theorem C1_amended_partial_application (key : String) (req : Request) (now : Nat)
    (s : DeviceState) (st b : String)
    (h1 : req.apiKey = some key) (h2 : req.state = some st)
    (h3 : req.brightness = some b)
    (h4 : TallyState.fromString st = none ∨
      ¬(0 ≤ arduinoToInt b ∧ arduinoToInt b ≤ 255)) :
    (setHandler key req now s).1.statusCode = 400 ∧
    (setHandler key req now s).2.config = s.config ∧
    (setHandler key req now s).2.nvs = s.nvs ∧
    (setHandler key req now s).2.tallyState =
      (match TallyState.fromString st with
       | some v => v
       | none => s.tallyState) := by
  cases hf : TallyState.fromString st with
  | none =>
    simp [setHandler, h1, h2, hf, SetResult.statusCode]
  | some v =>
    have hb : ¬(0 ≤ arduinoToInt b ∧ arduinoToInt b ≤ 255) := by
      rcases h4 with h | h
      · rw [hf] at h; cases h
      · exact h
    simp [setHandler, h1, h2, h3, hf, setHandlerBrightness, hb, SetResult.statusCode]

/-- Witness for C1's amended claim: valid state, invalid brightness. -/
theorem C1_amended_partial_application_witness :
    (setHandler "k" ⟨some "k", some "STANDBY", some "300"⟩ 4
      (bootState defaultConfig emptyStore)).1.statusCode = 400 ∧
    (setHandler "k" ⟨some "k", some "STANDBY", some "300"⟩ 4
      (bootState defaultConfig emptyStore)).2.config =
      (bootState defaultConfig emptyStore).config ∧
    (setHandler "k" ⟨some "k", some "STANDBY", some "300"⟩ 4
      (bootState defaultConfig emptyStore)).2.nvs =
      (bootState defaultConfig emptyStore).nvs ∧
    (setHandler "k" ⟨some "k", some "STANDBY", some "300"⟩ 4
      (bootState defaultConfig emptyStore)).2.tallyState =
      (match TallyState.fromString "STANDBY" with
       | some v => v
       | none => (bootState defaultConfig emptyStore).tallyState) :=
  C1_amended_partial_application "k" ⟨some "k", some "STANDBY", some "300"⟩ 4
    (bootState defaultConfig emptyStore) "STANDBY" "300" rfl rfl rfl
    (Or.inr (by decide))

/-- C6: every `/set` request carrying the valid key sets `lastPing` to
the current time — whatever the other parameters are, so also on
requests ultimately rejected as invalid-state, invalid-brightness or
no-parameters — while a `/set` request with a missing or wrong key
leaves the whole device state unchanged. -/
theorem C6_set_records_contact (key : String) (req : Request) (now : Nat)
    (s : DeviceState) :
    (req.apiKey = some key → (setHandler key req now s).2.lastPing = now) ∧
    (req.apiKey ≠ some key → (setHandler key req now s).2 = s) := by
  constructor
  · intro h
    unfold setHandler
    rw [if_neg (by simp [h])]
    cases hst : req.state with
    | none =>
      dsimp only
      rw [setHandlerBrightness_lastPing]
    | some st =>
      dsimp only
      cases hf : TallyState.fromString st with
      | some v => rw [setHandlerBrightness_lastPing]
      | none => rfl
  · intro h
    simp [setHandler, h]

/-- Witness for C6: a rejected (no-parameter) authenticated request still
records contact; an unauthenticated one does not. -/
theorem C6_set_records_contact_witness :
    (setHandler "k" ⟨some "k", none, none⟩ 42
      (bootState defaultConfig emptyStore)).2.lastPing = 42 ∧
    (setHandler "k" ⟨some "bad", none, none⟩ 42
      (bootState defaultConfig emptyStore)).2 =
      bootState defaultConfig emptyStore := by
  refine ⟨(C6_set_records_contact "k" ⟨some "k", none, none⟩ 42
    (bootState defaultConfig emptyStore)).1 rfl,
    (C6_set_records_contact "k" ⟨some "bad", none, none⟩ 42
    (bootState defaultConfig emptyStore)).2 (by decide)⟩

/-- C7: `loadConfig`, called as at boot with the in-memory config still
default-constructed, handles a stored schema version different from
`configVersion` (including never written, where `NVS.getInt` yields 0)
and a matching version with an undecodable blob the same way: the
in-memory config stays the default and the default is persisted via
`saveConfig`; the device always ends up with a usable config. -/
theorem C7_load_defaults (n : NVSStore)
    (h : n.configVersion.getD 0 ≠ configVersionC ∨
      n.configBlob.bind decodeConfig = none) :
    loadConfig defaultConfig n = (defaultConfig, saveConfigStore defaultConfig n) := by
  unfold loadConfig
  by_cases hv : n.configVersion.getD 0 ≠ configVersionC
  · rw [if_pos hv]
  · rw [if_neg hv]
    have hb : n.configBlob.bind decodeConfig = none := by
      rcases h with h | h
      · exact absurd h hv
      · exact h
    simp [hb]

/-- Witness for C7 on a store where neither key was ever written. -/
theorem C7_load_defaults_witness :
    loadConfig defaultConfig emptyStore =
      (defaultConfig, saveConfigStore defaultConfig emptyStore) :=
  C7_load_defaults emptyStore (Or.inl (by decide))

/-- C8: `saveConfig` followed by `loadConfig` is the identity on
`Config`: the stored version matches and the blob decodes to exactly the
saved record, whatever the in-memory config and prior store contents. -/
theorem C8_save_load_roundtrip (c prior : Config) (n : NVSStore) :
    loadConfig prior (saveConfigStore c n) = (c, saveConfigStore c n) := by
  rfl

/-- C9: over any trace of per-iteration connectivity values, starting
from the process-start globals, the OTA check-and-apply sequence is
started at most once, and the iteration at which it starts is exactly
the first iteration in which the network is connected. -/
theorem C9_ota_at_most_once (cs : List Bool) :
    otaRuns cs loopInit ≤ 1 ∧
    otaRunIdx cs loopInit = List.findIdx? (fun b => b) cs := by
  induction cs with
  | nil => exact ⟨by decide, rfl⟩
  | cons c cs ih =>
    cases c with
    | false =>
      constructor
      · simpa [otaRuns, otaStep, loopInit] using ih.1
      · rw [List.findIdx?_cons]
        simp only [otaRunIdx, otaStep, loopInit, List.findIdx?_succ]
        norm_num
        exact congrArg (Option.map fun x => x + 1) ih.2
    | true =>
      constructor
      · have h0 : otaRuns cs ⟨true, false⟩ = 0 :=
          otaRuns_of_tried cs ⟨true, false⟩ rfl
        simp [otaRuns, otaStep, loopInit, h0]
      · rw [List.findIdx?_cons]
        simp [otaRunIdx, otaStep, loopInit]

/-- C10: an authenticated `/set` whose `brightness` parameter contains no
digit characters (e.g. `"abc"`, with no `state` parameter) is not
rejected: `String::toInt` parses it to 0, which passes the 0–255 range
check, so the request succeeds reporting brightness 0, the config
brightness becomes 0, and the config is persisted exactly when the prior
brightness differed from 0. -/
theorem C10_nonnumeric_brightness (key : String) (req : Request) (now : Nat)
    (s : DeviceState) (v : String)
    (h1 : req.apiKey = some key) (h2 : req.state = none)
    (h3 : req.brightness = some v) (h4 : ∀ c ∈ v.data, c.isDigit = false) :
    (setHandler key req now s).1 = .success s.tallyState 0 ∧
    (setHandler key req now s).2.config.brightness = 0 ∧
    (setHandler key req now s).2.tallyState = s.tallyState ∧
    (setHandler key req now s).2.lastPing = now ∧
    (setHandler key req now s).2.nvs =
      (if s.config.brightness = 0 then s.nvs else saveConfigStore ⟨0⟩ s.nvs) := by
  have hz : arduinoToInt v = 0 := arduinoToInt_eq_zero v h4
  have hrange : (0 : Int) ≤ arduinoToInt v ∧ arduinoToInt v ≤ 255 := by
    rw [hz]; exact ⟨le_refl 0, by norm_num⟩
  have hfin : (⟨(arduinoToInt v).toNat, by omega⟩ : Fin 256) = 0 := by
    simp [hz]
  by_cases hb : s.config.brightness = 0
  · simp [setHandler, h1, h2, h3, setHandlerBrightness, hrange, hfin, hb]
  · simp [setHandler, h1, h2, h3, setHandlerBrightness, hrange, hfin, hb,
      Ne.symm hb]

/-- Witness for C10 with brightness `"abc"` and a prior brightness of
127 (so the new value 0 is persisted). -/
theorem C10_nonnumeric_brightness_witness :
    (setHandler "k" ⟨some "k", none, some "abc"⟩ 11
      (bootState defaultConfig emptyStore)).1 = .success TallyState.off 0 ∧
    (setHandler "k" ⟨some "k", none, some "abc"⟩ 11
      (bootState defaultConfig emptyStore)).2.config.brightness = 0 ∧
    (setHandler "k" ⟨some "k", none, some "abc"⟩ 11
      (bootState defaultConfig emptyStore)).2.nvs =
      saveConfigStore ⟨0⟩ emptyStore := by
  have h := C10_nonnumeric_brightness "k" ⟨some "k", none, some "abc"⟩ 11
    (bootState defaultConfig emptyStore) "abc" rfl rfl rfl (by decide)
  exact ⟨h.1, h.2.1, by rw [h.2.2.2.2]; rfl⟩

end Tally
